import Mathlib

/-!
Verification of the iRacingSetupCopier matching and copying logic.

The development shallowly embeds the two Python modules of the repository,
src/main.py and src/setupCopier.py.  Pure string manipulation is translated
to Lean functions on `String` and `List Char`; the filesystem written by
`shutil.copy2` is an explicit finite map from (folder name, file name) to
file content, threaded through the per-file loop; exceptions raised by the
copy call are modelled by an oracle returning the error cause, and fallible
functions return `Option` or `Except`.
-/

namespace SetupCopier

/-- ASCII lower-casing of a string, modelling Python str.lower on the ASCII
strings this program manipulates (folder names and car codes). -/
def pyLower (s : String) : String := String.mk (s.data.map Char.toLower)

/-- Character-list recursion behind `pySplitUnderscore`: Python
str.split with a one-character separator keeps empty segments, and the
split of the empty string is the singleton list of the empty string. -/
def splitChars : List Char → List (List Char)
  | [] => [[]]
  | c :: rest =>
    let r := splitChars rest
    if c = '_' then [] :: r
    else
      match r with
      | [] => [[c]]
      | h :: t => (c :: h) :: t

/-- Python filename.split with separator underscore, as used by
extract_car_code in both modules. -/
def pySplitUnderscore (s : String) : List String :=
  (splitChars s.data).map (fun l => String.mk l)

/-- Anchored comparison: the first argument occurs at the very front of the
second.  Helper for the Python substring test. -/
def headMatch : List Char → List Char → Bool
  | [], _ => true
  | _ :: _, [] => false
  | c :: p, d :: l => c = d && headMatch p l

/-- Contiguous-substring occurrence of the second list in the first,
modelling the Python expression pat in s on strings. -/
def hasSub : List Char → List Char → Bool
  | [], p => p.isEmpty
  | l@(_ :: rest), p => headMatch p l || hasSub rest p

/-- Python substring containment on strings. -/
def strContains (s pat : String) : Bool := hasSub s.data pat.data

/-- Pointwise update of a finite map represented as a function; used both for
Python dict assignment and for one filesystem write with overwrite
semantics. -/
def upd {α β : Type} [DecidableEq α] (g : α → Option β) (k : α) (v : β) : α → Option β :=
  fun k' => if k' = k then some v else g k'

/-- Apply a list of key-value writes in order, later writes overriding
earlier ones. -/
def applyWrites {α β : Type} [DecidableEq α] (g : α → Option β) : List (α × β) → (α → Option β)
  | [] => g
  | w :: ws => applyWrites (upd g w.1 w.2) ws

/-- Value carried by the last write to a given key in a write list, if
any write to that key occurs at all. -/
def lastWrite {α β : Type} [DecidableEq α] (ws : List (α × β)) (k : α) : Option β :=
  ws.foldl (fun acc w => if w.1 = k then some w.2 else acc) none

/-- A destination folder below the iRacing setups directory; the matching
logic only ever reads its name. -/
structure Folder where
  name : String
deriving DecidableEq

/-- A .sto setup file: its file name, its stem (the name without the final
extension, what Path.stem yields), and its content. -/
structure SetupFile where
  name : String
  stem : String
  content : Nat
deriving DecidableEq

/-- The destination filesystem: content stored per (folder name, file name)
pair, none for an absent file. -/
abbrev FS : Type := String × String → Option Nat

/-- Oracle for the exceptions shutil.copy2 can raise: given the file name
and the destination folder name it returns some cause when that copy
raises, none when it succeeds. -/
abbrev CopyErr : Type := String → String → Option String

/-- extract_car_code of both modules: filename.split(underscore)[2].lower(),
where the IndexError raised on a short split is re-raised as ValueError;
the error case is modelled as none. -/
def extract_car_code (filename : String) : Option String :=
  let parts := pySplitUnderscore filename
  if h : 2 < parts.length then some (pyLower (parts.get ⟨2, h⟩)) else none

/-- Error message of the ValueError raised by extract_car_code, built by
copy_setup_files from the stem it passed in (quotation punctuation of the
original text elided). -/
def invalidMsg (stem : String) : String :=
  "Invalid filename format: " ++ stem ++ ". Expected format: VRS_25S1DS_CARCODE_*.sto"

/-- Error message recorded when no folder matches the extracted car code
(quotation punctuation of the original text elided). -/
def noMatchMsg (code nm : String) : String :=
  "No matching folder found for car code " ++ code ++ " in " ++ nm

/-- Error message recorded when the copy call raises, with the cause. -/
def copyFailMsg (nm cause : String) : String :=
  "Error copying " ++ nm ++ ": " ++ cause

/-- Entry appended to copied_files after a completed copy. -/
def successMsg (nm fold : String) : String := nm ++ " -> " ++ fold

/-- Outcome of processing one setup file: the string appended to
copied_files, or the string appended to errors. -/
inductive FileResult : Type where
  | success : String → FileResult
  | failure : String → FileResult
deriving DecidableEq

/-- The loop of copy_setup_files shared by both modules: process the files
in order, threading the filesystem, and collect copied_files and errors in
input order. -/
def copyFold (pf : FS → SetupFile → FS × FileResult) : FS → List SetupFile → FS × List String × List String
  | fs, [] => (fs, [], [])
  | fs, f :: rest =>
    let p := pf fs f
    let r := copyFold pf p.1 rest
    match p.2 with
    | FileResult.success m => (r.1, m :: r.2.1, r.2.2)
    | FileResult.failure m => (r.1, r.2.1, m :: r.2.2)

/-- Textual location of the setups directory under the user home. -/
def setupsPathText (home : String) : String := home ++ "/Documents/iRacing/setups"

/-- Message of the FileNotFoundError raised when the setups directory is
absent. -/
def notFoundMsg (home : String) : String :=
  "iRacing setups directory not found at: " ++ setupsPathText home

/-- get_iracing_setup_folders of both modules: the existence of the setups
directory and its subdirectory list are inputs of the model; when the
directory is absent the function raises FileNotFoundError, modelled as
Except.error. -/
def get_iracing_setup_folders (dirExists : Bool) (home : String) (subdirs : List Folder) :
    Except String (List Folder) :=
  if dirExists then Except.ok subdirs else Except.error (notFoundMsg home)

/-- Result of one whole run of main: a fatal abort carrying the untouched
filesystem, an early return when no .sto file was found, or a completed
batch with its filesystem and its two result lists. -/
inductive RunResult : Type where
  | fatal : String → FS → RunResult
  | noFiles : FS → RunResult
  | done : FS → List String → List String → RunResult

namespace Main

/-- The lookup table folder_mapping that main.py builds from the JSON alias
table (lines 93 and 94): every value self-mapped from its lower-cased form,
then updated with every entry whose key is non-empty, keyed by the
lower-cased key; later assignments override earlier ones exactly as in the
two Python dict builds. -/
def build_folder_mapping (m : List (String × String)) : String → Option String :=
  applyWrites
    (applyWrites (fun _ => none) (m.map (fun kv => (pyLower kv.2, kv.2))))
    ((m.filter (fun kv => kv.1 != "")).map (fun kv => (pyLower kv.1, kv.2)))

/-- Destination resolution of main.py (lines 99 to 111): first the table
lookup of the lower-cased car code followed by a case-insensitive exact
scan of the folders for the mapped name, then, when that produced no
folder, the first folder whose lower-cased name contains the lower-cased
code as a substring. -/
def resolve (table : String → Option String) (folders : List Folder) (code : String) :
    Option Folder :=
  let viaTable : Option Folder :=
    match table (pyLower code) with
    | some folderName => folders.find? (fun g => pyLower g.name == pyLower folderName)
    | none => none
  match viaTable with
  | some f => some f
  | none => folders.find? (fun g => strContains (pyLower g.name) (pyLower code))

/-- Body of the per-file loop of main.py copy_setup_files: extract the car
code (ValueError recorded as an invalid-format error), resolve a
destination, then either record the absence of a match, or copy, where a
raising copy is recorded as a copy error and a completed copy overwrites
the destination entry and records the success line. -/
def processFile (table : String → Option String) (folders : List Folder) (ce : CopyErr)
    (fs : FS) (f : SetupFile) : FS × FileResult :=
  match extract_car_code f.stem with
  | none => (fs, FileResult.failure (invalidMsg f.stem))
  | some code =>
    match resolve table folders code with
    | none => (fs, FileResult.failure (noMatchMsg code f.name))
    | some fold =>
      match ce f.name fold.name with
      | some cause => (fs, FileResult.failure (copyFailMsg f.name cause))
      | none => (upd fs (fold.name, f.name) f.content, FileResult.success (successMsg f.name fold.name))

/-- copy_setup_files of main.py, given the parsed content of
iracing-folders.json: build folder_mapping once, then run the loop. -/
def copy_setup_files (m : List (String × String)) (folders : List Folder) (ce : CopyErr)
    (fs : FS) (files : List SetupFile) : FS × List String × List String :=
  copyFold (processFile (build_folder_mapping m) folders ce) fs files

/-- Message of the FileNotFoundError raised by the open call on the alias
table file when it is absent. -/
def tableMissingMsg : String := "No such file or directory: iracing-folders.json"

/-- copy_setup_files of main.py including its very first statement, the
open of iracing-folders.json: when the file is absent (the none case) the
open raises before any file of the batch is examined. -/
def copy_setup_files_checked (mo : Option (List (String × String))) (folders : List Folder)
    (ce : CopyErr) (fs : FS) (files : List SetupFile) :
    Except String (FS × List String × List String) :=
  match mo with
  | none => Except.error tableMissingMsg
  | some m => Except.ok (copy_setup_files m folders ce fs files)

/-- main of main.py: enumerate the folders (a missing setups directory
raises and is caught as a fatal error), enumerate the files, return early
when no file was found, then run copy_setup_files, whose own
FileNotFoundError on the alias table is likewise caught as fatal. -/
def main (dirExists : Bool) (home : String) (subdirs : List Folder)
    (mo : Option (List (String × String))) (ce : CopyErr) (fs : FS)
    (files : List SetupFile) : RunResult :=
  match get_iracing_setup_folders dirExists home subdirs with
  | Except.error e => RunResult.fatal ("Erro fatal: " ++ e) fs
  | Except.ok folders =>
    if files.isEmpty then RunResult.noFiles fs
    else
      match copy_setup_files_checked mo folders ce fs files with
      | Except.error e => RunResult.fatal ("Erro fatal: " ++ e) fs
      | Except.ok (fs1, copied, errs) => RunResult.done fs1 copied errs

end Main

namespace SC

/-- folder_map of setupCopier.py copy_setup_files (lines 88 to 90): a dict
from lower-cased folder name to folder, later folders overriding earlier
ones on equal lower-cased names. -/
def folder_map (folders : List Folder) : String → Option Folder :=
  applyWrites (fun _ => none) (folders.map (fun g => (pyLower g.name, g)))

/-- Body of the per-file loop of setupCopier.py copy_setup_files: extract
the car code, look the already lower-cased code up in folder_map, and
either copy (a raising copy recorded as a copy error) or record the absence
of a match. -/
def processFile (folders : List Folder) (ce : CopyErr) (fs : FS) (f : SetupFile) :
    FS × FileResult :=
  match extract_car_code f.stem with
  | none => (fs, FileResult.failure (invalidMsg f.stem))
  | some code =>
    match folder_map folders code with
    | none => (fs, FileResult.failure (noMatchMsg code f.name))
    | some fold =>
      match ce f.name fold.name with
      | some cause => (fs, FileResult.failure (copyFailMsg f.name cause))
      | none => (upd fs (fold.name, f.name) f.content, FileResult.success (successMsg f.name fold.name))

/-- copy_setup_files of setupCopier.py. -/
def copy_setup_files (folders : List Folder) (ce : CopyErr) (fs : FS)
    (files : List SetupFile) : FS × List String × List String :=
  copyFold (processFile folders ce) fs files

end SC

/-- A fold with the accumulator style of lastWrite equals the last write
when one exists and the start value otherwise. -/
theorem foldl_lastWrite {α β : Type} [DecidableEq α] (k : α) (ws : List (α × β)) (a : Option β) :
    ws.foldl (fun acc w => if w.1 = k then some w.2 else acc) a =
      (lastWrite ws k).elim a some := by
  induction ws generalizing a with
  | nil => rfl
  | cons w ws ih =>
    show ws.foldl _ (if w.1 = k then some w.2 else a) = (lastWrite (w :: ws) k).elim a some
    have hc : lastWrite (w :: ws) k =
        (lastWrite ws k).elim (if w.1 = k then some w.2 else none) some := by
      show ws.foldl _ (if w.1 = k then some w.2 else none) = _
      rw [ih]
    rw [ih, hc]
    cases lastWrite ws k with
    | none =>
      by_cases h : w.1 = k
      · rw [if_pos h, if_pos h]; rfl
      · rw [if_neg h, if_neg h]; rfl
    | some v => rfl

/-- Cons equation for lastWrite. -/
theorem lastWrite_cons {α β : Type} [DecidableEq α] (w : α × β) (ws : List (α × β)) (k : α) :
    lastWrite (w :: ws) k = (lastWrite ws k).elim (if w.1 = k then some w.2 else none) some := by
  show ws.foldl _ (if w.1 = k then some w.2 else none) = _
  rw [foldl_lastWrite]

/-- Pointwise value of a write sequence: the last write to the key when one
exists, the base map otherwise. -/
theorem applyWrites_apply {α β : Type} [DecidableEq α] (ws : List (α × β))
    (g : α → Option β) (k : α) :
    applyWrites g ws k = (lastWrite ws k).elim (g k) some := by
  induction ws generalizing g with
  | nil => rfl
  | cons w ws ih =>
    show applyWrites (upd g w.1 w.2) ws k = _
    rw [ih, lastWrite_cons]
    cases lastWrite ws k with
    | some v => rfl
    | none =>
      show upd g w.1 w.2 k = (if w.1 = k then some w.2 else none).elim (g k) some
      unfold upd
      by_cases h : w.1 = k
      · rw [if_pos h, if_pos h.symm]; rfl
      · rw [if_neg h, if_neg (fun hk => h hk.symm)]; rfl

/-- Replaying the same write sequence a second time leaves the map
unchanged. -/
theorem applyWrites_idem {α β : Type} [DecidableEq α] (g : α → Option β) (ws : List (α × β)) :
    applyWrites (applyWrites g ws) ws = applyWrites g ws := by
  funext k
  rw [applyWrites_apply, applyWrites_apply]
  cases lastWrite ws k with
  | none => rfl
  | some v => rfl

/-- lastWrite is none exactly when no write touches the key. -/
theorem lastWrite_eq_none_iff {α β : Type} [DecidableEq α] (ws : List (α × β)) (k : α) :
    lastWrite ws k = none ↔ ∀ w ∈ ws, w.1 ≠ k := by
  induction ws with
  | nil => simp [lastWrite]
  | cons w ws ih =>
    rw [lastWrite_cons, List.forall_mem_cons]
    cases hl : lastWrite ws k with
    | some v =>
      constructor
      · intro h; exact absurd h (by simp)
      · rintro ⟨h1, h2⟩
        rw [ih.mpr h2] at hl
        exact absurd hl (by simp)
    | none =>
      constructor
      · intro h
        refine ⟨?_, ih.mp hl⟩
        intro hk
        rw [if_pos hk] at h
        exact Option.noConfusion h
      · rintro ⟨h1, h2⟩
        simp [h1]

/-- A successful lastWrite lookup comes from an actual write in the list. -/
theorem lastWrite_mem {α β : Type} [DecidableEq α] {ws : List (α × β)} {k : α} {v : β}
    (h : lastWrite ws k = some v) : (k, v) ∈ ws := by
  induction ws with
  | nil => exact absurd h (by simp [lastWrite])
  | cons w ws ih =>
    rw [lastWrite_cons] at h
    cases hl : lastWrite ws k with
    | some u =>
      rw [hl] at h
      have hv : u = v := Option.some_inj.mp h
      exact List.mem_cons_of_mem _ (ih (hv ▸ hl))
    | none =>
      rw [hl] at h
      by_cases hk : w.1 = k
      · rw [if_pos hk] at h
        have hv : w.2 = v := Option.some_inj.mp h
        have hw : w = (k, v) := by
          calc w = (w.1, w.2) := rfl
          _ = (k, v) := by rw [hk, hv]
        rw [hw]
        exact List.mem_cons_self _ _
      · rw [if_neg hk] at h
        exact absurd h (by simp)

/-- When some write touches the key and every write to the key carries the
same value, lastWrite returns that value. -/
theorem lastWrite_eq_some_of {α β : Type} [DecidableEq α] {ws : List (α × β)} {k : α} {v : β}
    (hex : ∃ w ∈ ws, w.1 = k) (huniq : ∀ w ∈ ws, w.1 = k → w.2 = v) :
    lastWrite ws k = some v := by
  cases hl : lastWrite ws k with
  | some u =>
    have hm := lastWrite_mem hl
    exact congrArg some (huniq (k, u) hm rfl)
  | none =>
    rcases hex with ⟨w, hw, hk⟩
    exact absurd hk ((lastWrite_eq_none_iff ws k).mp hl w hw)

/-- Every string contains the empty string as a substring. -/
theorem hasSub_nil (l : List Char) : hasSub l [] = true := by
  cases l <;> rfl

/-- Split the per-file outcomes into the copied_files list and the errors
list, keeping input order in each. -/
def splitResults : List FileResult → List String × List String
  | [] => ([], [])
  | r :: rest =>
    let p := splitResults rest
    match r with
    | FileResult.success m => (m :: p.1, p.2)
    | FileResult.failure m => (p.1, m :: p.2)

/-- Every file contributes exactly one entry to exactly one of the two
lists. -/
theorem splitResults_length (rs : List FileResult) :
    (splitResults rs).1.length + (splitResults rs).2.length = rs.length := by
  induction rs with
  | nil => rfl
  | cons r rest ih =>
    cases r <;> simp [splitResults] <;> omega

/-- The loop of copy_setup_files factors through a per-file write plan and a
per-file outcome, both independent of the filesystem state. -/
theorem copyFold_eq (pf : FS → SetupFile → FS × FileResult)
    (fw : SetupFile → Option ((String × String) × Nat)) (fr : SetupFile → FileResult)
    (hpf : ∀ fs f, pf fs f = ((fw f).elim fs (fun w => upd fs w.1 w.2), fr f)) :
    ∀ (files : List SetupFile) (fs : FS),
      copyFold pf fs files =
        (applyWrites fs (files.filterMap fw), splitResults (files.map fr)) := by
  intro files
  induction files with
  | nil => intro fs; rfl
  | cons f rest ih =>
    intro fs
    show (let p := pf fs f
          let r := copyFold pf p.1 rest
          match p.2 with
          | FileResult.success m => (r.1, m :: r.2.1, r.2.2)
          | FileResult.failure m => (r.1, r.2.1, m :: r.2.2)) = _
    rw [hpf fs f]
    cases hw : fw f with
    | none =>
      cases hr : fr f with
      | success m =>
        simp only [Option.elim, ih, List.filterMap_cons, hw, List.map_cons, hr, splitResults]
      | failure m =>
        simp only [Option.elim, ih, List.filterMap_cons, hw, List.map_cons, hr, splitResults]
    | some w =>
      cases hr : fr f with
      | success m =>
        simp only [Option.elim, ih, List.filterMap_cons, hw, List.map_cons, hr, splitResults,
          applyWrites]
      | failure m =>
        simp only [Option.elim, ih, List.filterMap_cons, hw, List.map_cons, hr, splitResults,
          applyWrites]

namespace Main

/-- The single filesystem write a file causes in main.py, when its copy
completes: the destination entry and the copied content. -/
def fileWrite (table : String → Option String) (folders : List Folder) (ce : CopyErr)
    (f : SetupFile) : Option ((String × String) × Nat) :=
  match extract_car_code f.stem with
  | none => none
  | some code =>
    match resolve table folders code with
    | none => none
    | some fold =>
      match ce f.name fold.name with
      | some _ => none
      | none => some ((fold.name, f.name), f.content)

/-- The outcome a file receives in main.py, independent of the filesystem
state. -/
def fileResult (table : String → Option String) (folders : List Folder) (ce : CopyErr)
    (f : SetupFile) : FileResult :=
  match extract_car_code f.stem with
  | none => FileResult.failure (invalidMsg f.stem)
  | some code =>
    match resolve table folders code with
    | none => FileResult.failure (noMatchMsg code f.name)
    | some fold =>
      match ce f.name fold.name with
      | some cause => FileResult.failure (copyFailMsg f.name cause)
      | none => FileResult.success (successMsg f.name fold.name)

/-- The loop body of main.py is its write plan plus its outcome. -/
theorem processFile_eq (table : String → Option String) (folders : List Folder) (ce : CopyErr)
    (fs : FS) (f : SetupFile) :
    processFile table folders ce fs f =
      ((fileWrite table folders ce f).elim fs (fun w => upd fs w.1 w.2),
        fileResult table folders ce f) := by
  unfold processFile fileWrite fileResult
  cases extract_car_code f.stem with
  | none => rfl
  | some code =>
    dsimp only
    cases resolve table folders code with
    | none => rfl
    | some fold =>
      dsimp only
      cases ce f.name fold.name <;> rfl

/-- Closed form of copy_setup_files of main.py: the filesystem after the
write plans of the files, plus the split of their fs-independent
outcomes. -/
theorem copy_setup_files_eq (m : List (String × String)) (folders : List Folder) (ce : CopyErr)
    (fs : FS) (files : List SetupFile) :
    copy_setup_files m folders ce fs files =
      (applyWrites fs (files.filterMap (fileWrite (build_folder_mapping m) folders ce)),
        splitResults (files.map (fileResult (build_folder_mapping m) folders ce))) :=
  copyFold_eq _ _ _ (processFile_eq (build_folder_mapping m) folders ce) files fs

end Main

namespace SC

/-- The single filesystem write a file causes in setupCopier.py, when its
copy completes. -/
def fileWrite (folders : List Folder) (ce : CopyErr) (f : SetupFile) :
    Option ((String × String) × Nat) :=
  match extract_car_code f.stem with
  | none => none
  | some code =>
    match folder_map folders code with
    | none => none
    | some fold =>
      match ce f.name fold.name with
      | some _ => none
      | none => some ((fold.name, f.name), f.content)

/-- The outcome a file receives in setupCopier.py. -/
def fileResult (folders : List Folder) (ce : CopyErr) (f : SetupFile) : FileResult :=
  match extract_car_code f.stem with
  | none => FileResult.failure (invalidMsg f.stem)
  | some code =>
    match folder_map folders code with
    | none => FileResult.failure (noMatchMsg code f.name)
    | some fold =>
      match ce f.name fold.name with
      | some cause => FileResult.failure (copyFailMsg f.name cause)
      | none => FileResult.success (successMsg f.name fold.name)

/-- The loop body of setupCopier.py is its write plan plus its outcome. -/
theorem processFile_eq_sc (folders : List Folder) (ce : CopyErr) (fs : FS) (f : SetupFile) :
    processFile folders ce fs f =
      ((fileWrite folders ce f).elim fs (fun w => upd fs w.1 w.2),
        fileResult folders ce f) := by
  unfold processFile fileWrite fileResult
  cases extract_car_code f.stem with
  | none => rfl
  | some code =>
    dsimp only
    cases folder_map folders code with
    | none => rfl
    | some fold =>
      dsimp only
      cases ce f.name fold.name <;> rfl

/-- Closed form of copy_setup_files of setupCopier.py. -/
theorem copy_setup_files_eq_sc (folders : List Folder) (ce : CopyErr) (fs : FS)
    (files : List SetupFile) :
    copy_setup_files folders ce fs files =
      (applyWrites fs (files.filterMap (fileWrite folders ce)),
        splitResults (files.map (fileResult folders ce))) :=
  copyFold_eq _ _ _ (processFile_eq_sc folders ce) files fs

end SC

/-- One unfolding step of the loop: the head file is processed, the rest of
the batch continues from the filesystem the head left behind. -/
theorem copyFold_cons (pf : FS → SetupFile → FS × FileResult) (fs : FS) (f : SetupFile)
    (rest : List SetupFile) :
    copyFold pf fs (f :: rest) =
      match (pf fs f).2 with
      | FileResult.success m =>
        ((copyFold pf (pf fs f).1 rest).1, m :: (copyFold pf (pf fs f).1 rest).2.1,
          (copyFold pf (pf fs f).1 rest).2.2)
      | FileResult.failure m =>
        ((copyFold pf (pf fs f).1 rest).1, (copyFold pf (pf fs f).1 rest).2.1,
          m :: (copyFold pf (pf fs f).1 rest).2.2) := rfl

/-- A stem splitting into two leading segments, an empty third segment and a
tail extracts the empty string as its car code. -/
theorem extract_car_code_empty_third (stem a b : String) (ts : List String)
    (hs : pySplitUnderscore stem = a :: b :: "" :: ts) :
    extract_car_code stem = some "" := by
  have hlen : 2 < (pySplitUnderscore stem).length := by
    rw [hs]
    simp [List.length_cons]
  unfold extract_car_code
  rw [dif_pos hlen]
  have hget : (pySplitUnderscore stem).get ⟨2, hlen⟩ = "" := by
    have hcast := List.get_of_eq hs ⟨2, hlen⟩
    rw [hcast]
    rfl
  rw [hget]
  rfl

/-- Claim C1: for every list of destination folders and every list of source
files, copy_setup_files (in both modules) yields exactly one result per
source file: the length of the successes list plus the length of the errors
list equals the number of input files, so no file is silently dropped. -/
theorem C1_one_result_per_file (m : List (String × String)) (folders : List Folder)
    (ce : CopyErr) (fs : FS) (files : List SetupFile) :
    (Main.copy_setup_files m folders ce fs files).2.1.length +
        (Main.copy_setup_files m folders ce fs files).2.2.length = files.length ∧
      (SC.copy_setup_files folders ce fs files).2.1.length +
        (SC.copy_setup_files folders ce fs files).2.2.length = files.length := by
  constructor
  · rw [Main.copy_setup_files_eq]
    dsimp only
    rw [splitResults_length, List.length_map]
  · rw [SC.copy_setup_files_eq_sc]
    dsimp only
    rw [splitResults_length, List.length_map]

/-- Claim C4: for every filename whose stem splits into at least three
underscore-separated segments, extract_car_code returns the third segment
lower-cased. -/
theorem C4_extract_third_segment (stem : String)
    (h : 2 < (pySplitUnderscore stem).length) :
    extract_car_code stem = some (pyLower ((pySplitUnderscore stem).get ⟨2, h⟩)) := by
  unfold extract_car_code
  rw [dif_pos h]

/-- Witness for C4 on a concrete filename stem. -/
theorem C4_witness :
    2 < (pySplitUnderscore "VRS_25S1DS_Porsche992GT3_test").length ∧
      extract_car_code "VRS_25S1DS_Porsche992GT3_test" = some "porsche992gt3" := by
  have h : 2 < (pySplitUnderscore "VRS_25S1DS_Porsche992GT3_test").length := by decide
  refine ⟨h, ?_⟩
  rw [C4_extract_third_segment _ h]
  rfl

/-- Claim C5: a source file whose stem has fewer than three underscore-separated
segments contributes exactly one invalid-format error, causes no filesystem
write, and the remaining files are processed exactly as without it. -/
theorem C5_short_stem_one_error (m : List (String × String)) (folders : List Folder)
    (ce : CopyErr) (fs : FS) (f : SetupFile) (rest : List SetupFile)
    (h : (pySplitUnderscore f.stem).length < 3) :
    Main.copy_setup_files m folders ce fs (f :: rest) =
      ((Main.copy_setup_files m folders ce fs rest).1,
        (Main.copy_setup_files m folders ce fs rest).2.1,
        invalidMsg f.stem :: (Main.copy_setup_files m folders ce fs rest).2.2) := by
  have hx : extract_car_code f.stem = none := by
    unfold extract_car_code
    rw [dif_neg (by omega)]
  have hpf : Main.processFile (Main.build_folder_mapping m) folders ce fs f =
      (fs, FileResult.failure (invalidMsg f.stem)) := by
    unfold Main.processFile
    rw [hx]
  show copyFold (Main.processFile (Main.build_folder_mapping m) folders ce) fs (f :: rest) = _
  rw [copyFold_cons, hpf]
  rfl

/-- Witness for C5 on a concrete batch. -/
theorem C5_witness :
    (pySplitUnderscore "invalid").length < 3 ∧
      Main.copy_setup_files [] [Folder.mk "porsche992gt3"] (fun _ _ => none) (fun _ => none)
          (SetupFile.mk "invalid.sto" "invalid" 1 :: []) =
        ((Main.copy_setup_files [] [Folder.mk "porsche992gt3"] (fun _ _ => none)
            (fun _ => none) []).1,
          (Main.copy_setup_files [] [Folder.mk "porsche992gt3"] (fun _ _ => none)
            (fun _ => none) []).2.1,
          invalidMsg "invalid" ::
            (Main.copy_setup_files [] [Folder.mk "porsche992gt3"] (fun _ _ => none)
              (fun _ => none) []).2.2) :=
  ⟨by decide,
    C5_short_stem_one_error [] [Folder.mk "porsche992gt3"] (fun _ _ => none) (fun _ => none)
      (SetupFile.mk "invalid.sto" "invalid" 1) [] (by decide)⟩

/-- Claim C7: when the destination root directory does not exist, the folder
enumerator raises a not-found error and main aborts the run as fatal before
any file is touched: the filesystem is returned unchanged and no per-file
result is produced. -/
theorem C7_absent_setups_dir_aborts (home : String) (subdirs : List Folder)
    (mo : Option (List (String × String))) (ce : CopyErr) (fs : FS)
    (files : List SetupFile) :
    Main.main false home subdirs mo ce fs files =
      RunResult.fatal ("Erro fatal: " ++ notFoundMsg home) fs := rfl

/-- Claim C8: running copy_setup_files (in either module) a second time on the
filesystem produced by the first run, with the same folder list and file
list, returns the very same filesystem and the same successes and errors
classification. -/
theorem C8_copy_idempotent (m : List (String × String)) (folders : List Folder) (ce : CopyErr)
    (fs : FS) (files : List SetupFile) :
    Main.copy_setup_files m folders ce (Main.copy_setup_files m folders ce fs files).1 files =
        Main.copy_setup_files m folders ce fs files ∧
      SC.copy_setup_files folders ce (SC.copy_setup_files folders ce fs files).1 files =
        SC.copy_setup_files folders ce fs files := by
  constructor
  · rw [Main.copy_setup_files_eq m folders ce fs files]
    dsimp only
    rw [Main.copy_setup_files_eq]
    rw [applyWrites_idem]
  · rw [SC.copy_setup_files_eq_sc folders ce fs files]
    dsimp only
    rw [SC.copy_setup_files_eq_sc]
    rw [applyWrites_idem]

/-- Claim C2 fails on main.py: the stem extracts the key porsche, the folder named
porsche matches it exactly, yet with an alias table lacking that key the
substring fallback picks the earlier folder xporschex, so the file lands in
xporschex and the exact-match folder stays empty. -/
theorem C2_counterexample :
    extract_car_code "VRS_25S1DS_porsche_a" = some "porsche" ∧
      Folder.mk "porsche" ∈ [Folder.mk "xporschex", Folder.mk "porsche"] ∧
      pyLower (Folder.mk "porsche").name = "porsche" ∧
      (Main.copy_setup_files [] [Folder.mk "xporschex", Folder.mk "porsche"]
          (fun _ _ => none) (fun _ => none)
          [SetupFile.mk "VRS_25S1DS_porsche_a.sto" "VRS_25S1DS_porsche_a" 7]).2.1 =
        [successMsg "VRS_25S1DS_porsche_a.sto" "xporschex"] ∧
      (Main.copy_setup_files [] [Folder.mk "xporschex", Folder.mk "porsche"]
          (fun _ _ => none) (fun _ => none)
          [SetupFile.mk "VRS_25S1DS_porsche_a.sto" "VRS_25S1DS_porsche_a" 7]).1
          ("porsche", "VRS_25S1DS_porsche_a.sto") = none ∧
      (Main.copy_setup_files [] [Folder.mk "xporschex", Folder.mk "porsche"]
          (fun _ _ => none) (fun _ => none)
          [SetupFile.mk "VRS_25S1DS_porsche_a.sto" "VRS_25S1DS_porsche_a" 7]).1
          ("xporschex", "VRS_25S1DS_porsche_a.sto") = some 7 := by
  decide

/-- Claim C2 amended: in main.py exact matching happens only through the lookup
table: when the extracted key is a key of folder_mapping whose value names
an enumerated folder (case-insensitively), the file is copied into the
first such folder with a success record, with priority over the substring
fallback; in setupCopier.py a key that equals the lower-cased name of
exactly one folder sends the file into that folder with a success
record. -/
theorem C2_amended :
    (∀ (m : List (String × String)) (folders : List Folder) (ce : CopyErr) (fs : FS)
        (f : SetupFile) (rest : List SetupFile) (code v : String) (fold : Folder),
        extract_car_code f.stem = some code →
        Main.build_folder_mapping m (pyLower code) = some v →
        folders.find? (fun g => pyLower g.name == pyLower v) = some fold →
        ce f.name fold.name = none →
        Main.copy_setup_files m folders ce fs (f :: rest) =
          ((Main.copy_setup_files m folders ce (upd fs (fold.name, f.name) f.content) rest).1,
            successMsg f.name fold.name ::
              (Main.copy_setup_files m folders ce
                (upd fs (fold.name, f.name) f.content) rest).2.1,
            (Main.copy_setup_files m folders ce
              (upd fs (fold.name, f.name) f.content) rest).2.2)) ∧
    (∀ (folders : List Folder) (ce : CopyErr) (fs : FS) (f : SetupFile)
        (rest : List SetupFile) (code : String) (fold : Folder),
        extract_car_code f.stem = some code →
        fold ∈ folders → pyLower fold.name = code →
        (∀ g ∈ folders, pyLower g.name = code → g = fold) →
        ce f.name fold.name = none →
        SC.copy_setup_files folders ce fs (f :: rest) =
          ((SC.copy_setup_files folders ce (upd fs (fold.name, f.name) f.content) rest).1,
            successMsg f.name fold.name ::
              (SC.copy_setup_files folders ce (upd fs (fold.name, f.name) f.content) rest).2.1,
            (SC.copy_setup_files folders ce (upd fs (fold.name, f.name) f.content) rest).2.2)) := by
  constructor
  · intro m folders ce fs f rest code v fold hx ht hf hc
    have hres : Main.resolve (Main.build_folder_mapping m) folders code = some fold := by
      simp only [Main.resolve, ht, hf]
    have hpf : Main.processFile (Main.build_folder_mapping m) folders ce fs f =
        (upd fs (fold.name, f.name) f.content,
          FileResult.success (successMsg f.name fold.name)) := by
      simp only [Main.processFile, hx, hres, hc]
    show copyFold (Main.processFile (Main.build_folder_mapping m) folders ce) fs (f :: rest) = _
    rw [copyFold_cons, hpf]
    rfl
  · intro folders ce fs f rest code fold hx hmem hcode huniq hc
    have hfm : SC.folder_map folders code = some fold := by
      unfold SC.folder_map
      rw [applyWrites_apply]
      have hlw : lastWrite (folders.map fun g => (pyLower g.name, g)) code = some fold := by
        apply lastWrite_eq_some_of
        · exact ⟨(pyLower fold.name, fold), List.mem_map_of_mem _ hmem, hcode⟩
        · rintro w hw hwk
          rcases List.mem_map.mp hw with ⟨g, hg, rfl⟩
          exact huniq g hg hwk
      rw [hlw]
      rfl
    have hpf : SC.processFile folders ce fs f =
        (upd fs (fold.name, f.name) f.content,
          FileResult.success (successMsg f.name fold.name)) := by
      simp only [SC.processFile, hx, hfm, hc]
    show copyFold (SC.processFile folders ce) fs (f :: rest) = _
    rw [copyFold_cons, hpf]
    rfl

/-- Witness for C2 amended on concrete batches for both modules. -/
theorem C2_amended_witness :
    (extract_car_code "VRS_25S1DS_gt3_a" = some "gt3" ∧
      Main.build_folder_mapping [("gt3", "porsche992gt3")] (pyLower "gt3") =
        some "porsche992gt3" ∧
      [Folder.mk "porsche992gt3"].find?
          (fun g => pyLower g.name == pyLower "porsche992gt3") =
        some (Folder.mk "porsche992gt3") ∧
      Main.copy_setup_files [("gt3", "porsche992gt3")] [Folder.mk "porsche992gt3"]
          (fun _ _ => none) (fun _ => none)
          (SetupFile.mk "VRS_25S1DS_gt3_a.sto" "VRS_25S1DS_gt3_a" 3 :: []) =
        ((Main.copy_setup_files [("gt3", "porsche992gt3")] [Folder.mk "porsche992gt3"]
            (fun _ _ => none)
            (upd (fun _ => none) ("porsche992gt3", "VRS_25S1DS_gt3_a.sto") 3) []).1,
          successMsg "VRS_25S1DS_gt3_a.sto" "porsche992gt3" ::
            (Main.copy_setup_files [("gt3", "porsche992gt3")] [Folder.mk "porsche992gt3"]
              (fun _ _ => none)
              (upd (fun _ => none) ("porsche992gt3", "VRS_25S1DS_gt3_a.sto") 3) []).2.1,
          (Main.copy_setup_files [("gt3", "porsche992gt3")] [Folder.mk "porsche992gt3"]
            (fun _ _ => none)
            (upd (fun _ => none) ("porsche992gt3", "VRS_25S1DS_gt3_a.sto") 3) []).2.2)) ∧
    (extract_car_code "VRS_25S1DS_ferrarigt3_b" = some "ferrarigt3" ∧
      SC.copy_setup_files [Folder.mk "ferrarigt3"] (fun _ _ => none) (fun _ => none)
          (SetupFile.mk "VRS_25S1DS_ferrarigt3_b.sto" "VRS_25S1DS_ferrarigt3_b" 4 :: []) =
        ((SC.copy_setup_files [Folder.mk "ferrarigt3"] (fun _ _ => none)
            (upd (fun _ => none) ("ferrarigt3", "VRS_25S1DS_ferrarigt3_b.sto") 4) []).1,
          successMsg "VRS_25S1DS_ferrarigt3_b.sto" "ferrarigt3" ::
            (SC.copy_setup_files [Folder.mk "ferrarigt3"] (fun _ _ => none)
              (upd (fun _ => none) ("ferrarigt3", "VRS_25S1DS_ferrarigt3_b.sto") 4) []).2.1,
          (SC.copy_setup_files [Folder.mk "ferrarigt3"] (fun _ _ => none)
            (upd (fun _ => none) ("ferrarigt3", "VRS_25S1DS_ferrarigt3_b.sto") 4) []).2.2)) := by
  constructor
  · refine ⟨by decide, by decide, by decide, ?_⟩
    exact C2_amended.1 [("gt3", "porsche992gt3")] [Folder.mk "porsche992gt3"]
      (fun _ _ => none) (fun _ => none)
      (SetupFile.mk "VRS_25S1DS_gt3_a.sto" "VRS_25S1DS_gt3_a" 3) [] "gt3" "porsche992gt3"
      (Folder.mk "porsche992gt3") (by decide) (by decide) (by decide) rfl
  · refine ⟨by decide, ?_⟩
    exact C2_amended.2 [Folder.mk "ferrarigt3"] (fun _ _ => none) (fun _ => none)
      (SetupFile.mk "VRS_25S1DS_ferrarigt3_b.sto" "VRS_25S1DS_ferrarigt3_b" 4) []
      "ferrarigt3" (Folder.mk "ferrarigt3") (by decide) (by decide) (by decide)
      (by decide) rfl

/-- Claim C3 fails on main.py: with the alias table file absent,
copy_setup_files raises the FileNotFoundError of the open call before
examining the batch, so a perfectly matchable file is never processed. -/
theorem C3_counterexample :
    Main.copy_setup_files_checked none [Folder.mk "porsche992gt3"] (fun _ _ => none)
        (fun _ => none)
        [SetupFile.mk "VRS_25S1DS_porsche992gt3_a.sto" "VRS_25S1DS_porsche992gt3_a" 1] =
      Except.error Main.tableMissingMsg := rfl

/-- Claim C3 amended: when the alias table file is absent, copy_setup_files of
main.py raises the FileNotFoundError of its open call before processing any
source file, and main catches it as a fatal error that aborts the run with
the filesystem untouched; no per-file fallback takes place. -/
theorem C3_amended :
    (∀ (folders : List Folder) (ce : CopyErr) (fs : FS) (files : List SetupFile),
        Main.copy_setup_files_checked none folders ce fs files =
          Except.error Main.tableMissingMsg) ∧
    (∀ (home : String) (subdirs : List Folder) (ce : CopyErr) (fs : FS)
        (files : List SetupFile), files ≠ [] →
        Main.main true home subdirs none ce fs files =
          RunResult.fatal ("Erro fatal: " ++ Main.tableMissingMsg) fs) := by
  constructor
  · intro folders ce fs files
    rfl
  · intro home subdirs ce fs files hne
    cases files with
    | nil => exact absurd rfl hne
    | cons f rest => rfl

/-- Witness for C3 amended on a concrete run. -/
theorem C3_amended_witness :
    (SetupFile.mk "VRS_25S1DS_gt3_a.sto" "VRS_25S1DS_gt3_a" 1 :: []) ≠ [] ∧
      Main.main true "home" [Folder.mk "porsche992gt3"] none (fun _ _ => none)
          (fun _ => none) (SetupFile.mk "VRS_25S1DS_gt3_a.sto" "VRS_25S1DS_gt3_a" 1 :: []) =
        RunResult.fatal ("Erro fatal: " ++ Main.tableMissingMsg) (fun _ => none) :=
  ⟨by decide,
    C3_amended.2 "home" [Folder.mk "porsche992gt3"] (fun _ _ => none) (fun _ => none)
      (SetupFile.mk "VRS_25S1DS_gt3_a.sto" "VRS_25S1DS_gt3_a" 1 :: []) (by decide)⟩

/-- Claim C6: in both modules, when the copy of one source file raises, the loop
records one copy-failure error built from the file name and the underlying
cause, performs no filesystem write for that file, and processes every
remaining file exactly as it would have without the failing one; the batch
is never aborted. -/
theorem C6_copy_error_isolated :
    (∀ (m : List (String × String)) (folders : List Folder) (ce : CopyErr) (fs : FS)
        (f : SetupFile) (rest : List SetupFile) (code : String) (fold : Folder)
        (cause : String),
        extract_car_code f.stem = some code →
        Main.resolve (Main.build_folder_mapping m) folders code = some fold →
        ce f.name fold.name = some cause →
        Main.copy_setup_files m folders ce fs (f :: rest) =
          ((Main.copy_setup_files m folders ce fs rest).1,
            (Main.copy_setup_files m folders ce fs rest).2.1,
            copyFailMsg f.name cause ::
              (Main.copy_setup_files m folders ce fs rest).2.2)) ∧
    (∀ (folders : List Folder) (ce : CopyErr) (fs : FS) (f : SetupFile)
        (rest : List SetupFile) (code : String) (fold : Folder) (cause : String),
        extract_car_code f.stem = some code →
        SC.folder_map folders code = some fold →
        ce f.name fold.name = some cause →
        SC.copy_setup_files folders ce fs (f :: rest) =
          ((SC.copy_setup_files folders ce fs rest).1,
            (SC.copy_setup_files folders ce fs rest).2.1,
            copyFailMsg f.name cause :: (SC.copy_setup_files folders ce fs rest).2.2)) := by
  constructor
  · intro m folders ce fs f rest code fold cause hx hres hc
    have hpf : Main.processFile (Main.build_folder_mapping m) folders ce fs f =
        (fs, FileResult.failure (copyFailMsg f.name cause)) := by
      simp only [Main.processFile, hx, hres, hc]
    show copyFold (Main.processFile (Main.build_folder_mapping m) folders ce) fs (f :: rest) = _
    rw [copyFold_cons, hpf]
    rfl
  · intro folders ce fs f rest code fold cause hx hfm hc
    have hpf : SC.processFile folders ce fs f =
        (fs, FileResult.failure (copyFailMsg f.name cause)) := by
      simp only [SC.processFile, hx, hfm, hc]
    show copyFold (SC.processFile folders ce) fs (f :: rest) = _
    rw [copyFold_cons, hpf]
    rfl

/-- Witness for C6 on concrete failing copies in both modules. -/
theorem C6_witness :
    (extract_car_code "VRS_25S1DS_porsche_a" = some "porsche" ∧
      Main.resolve (Main.build_folder_mapping []) [Folder.mk "porsche"] "porsche" =
        some (Folder.mk "porsche") ∧
      Main.copy_setup_files [] [Folder.mk "porsche"] (fun _ _ => some "disk full")
          (fun _ => none)
          (SetupFile.mk "VRS_25S1DS_porsche_a.sto" "VRS_25S1DS_porsche_a" 2 :: []) =
        ((Main.copy_setup_files [] [Folder.mk "porsche"] (fun _ _ => some "disk full")
            (fun _ => none) []).1,
          (Main.copy_setup_files [] [Folder.mk "porsche"] (fun _ _ => some "disk full")
            (fun _ => none) []).2.1,
          copyFailMsg "VRS_25S1DS_porsche_a.sto" "disk full" ::
            (Main.copy_setup_files [] [Folder.mk "porsche"] (fun _ _ => some "disk full")
              (fun _ => none) []).2.2)) ∧
    (SC.folder_map [Folder.mk "porsche"] "porsche" = some (Folder.mk "porsche") ∧
      SC.copy_setup_files [Folder.mk "porsche"] (fun _ _ => some "disk full")
          (fun _ => none)
          (SetupFile.mk "VRS_25S1DS_porsche_a.sto" "VRS_25S1DS_porsche_a" 2 :: []) =
        ((SC.copy_setup_files [Folder.mk "porsche"] (fun _ _ => some "disk full")
            (fun _ => none) []).1,
          (SC.copy_setup_files [Folder.mk "porsche"] (fun _ _ => some "disk full")
            (fun _ => none) []).2.1,
          copyFailMsg "VRS_25S1DS_porsche_a.sto" "disk full" ::
            (SC.copy_setup_files [Folder.mk "porsche"] (fun _ _ => some "disk full")
              (fun _ => none) []).2.2)) := by
  constructor
  · refine ⟨by decide, by decide, ?_⟩
    exact C6_copy_error_isolated.1 [] [Folder.mk "porsche"] (fun _ _ => some "disk full")
      (fun _ => none) (SetupFile.mk "VRS_25S1DS_porsche_a.sto" "VRS_25S1DS_porsche_a" 2) []
      "porsche" (Folder.mk "porsche") "disk full" (by decide) (by decide) rfl
  · refine ⟨by decide, ?_⟩
    exact C6_copy_error_isolated.2 [Folder.mk "porsche"] (fun _ _ => some "disk full")
      (fun _ => none) (SetupFile.mk "VRS_25S1DS_porsche_a.sto" "VRS_25S1DS_porsche_a" 2) []
      "porsche" (Folder.mk "porsche") "disk full" (by decide) (by decide) rfl

/-- Claim C9: a stem with at least three underscore-separated segments whose third
segment is empty extracts the empty key; since the empty string is a
substring of every folder name and the lookup table has no entry for it,
the substring fallback of main.py resolves the first enumerated folder and
the file is recorded as a success, not as a no-matching-folder error. -/
theorem C9_empty_key_first_folder (m : List (String × String)) (f0 : Folder)
    (folders : List Folder) (ce : CopyErr) (fs : FS) (f : SetupFile)
    (rest : List SetupFile) (a b : String) (ts : List String)
    (hs : pySplitUnderscore f.stem = a :: b :: "" :: ts)
    (ht : Main.build_folder_mapping m "" = none)
    (hc : ce f.name f0.name = none) :
    Main.copy_setup_files m (f0 :: folders) ce fs (f :: rest) =
      ((Main.copy_setup_files m (f0 :: folders) ce
          (upd fs (f0.name, f.name) f.content) rest).1,
        successMsg f.name f0.name ::
          (Main.copy_setup_files m (f0 :: folders) ce
            (upd fs (f0.name, f.name) f.content) rest).2.1,
        (Main.copy_setup_files m (f0 :: folders) ce
          (upd fs (f0.name, f.name) f.content) rest).2.2) := by
  have hx : extract_car_code f.stem = some "" := extract_car_code_empty_third f.stem a b ts hs
  have hpl : pyLower ("" : String) = "" := rfl
  have hres : Main.resolve (Main.build_folder_mapping m) (f0 :: folders) "" = some f0 := by
    simp only [Main.resolve, hpl, ht]
    have hp : strContains (pyLower f0.name) "" = true := hasSub_nil (pyLower f0.name).data
    simp only [List.find?, hp]
  have hpf : Main.processFile (Main.build_folder_mapping m) (f0 :: folders) ce fs f =
      (upd fs (f0.name, f.name) f.content,
        FileResult.success (successMsg f.name f0.name)) := by
    simp only [Main.processFile, hx, hres, hc]
  show copyFold (Main.processFile (Main.build_folder_mapping m) (f0 :: folders) ce) fs
      (f :: rest) = _
  rw [copyFold_cons, hpf]
  rfl

/-- Witness for C9 on a concrete stem with an empty third segment. -/
theorem C9_witness :
    pySplitUnderscore "VRS_25S1DS__a" = "VRS" :: "25S1DS" :: "" :: ["a"] ∧
      Main.build_folder_mapping [] "" = none ∧
      Main.copy_setup_files [] [Folder.mk "porsche992gt3"] (fun _ _ => none) (fun _ => none)
          (SetupFile.mk "VRS_25S1DS__a.sto" "VRS_25S1DS__a" 5 :: []) =
        ((Main.copy_setup_files [] [Folder.mk "porsche992gt3"] (fun _ _ => none)
            (upd (fun _ => none) ("porsche992gt3", "VRS_25S1DS__a.sto") 5) []).1,
          successMsg "VRS_25S1DS__a.sto" "porsche992gt3" ::
            (Main.copy_setup_files [] [Folder.mk "porsche992gt3"] (fun _ _ => none)
              (upd (fun _ => none) ("porsche992gt3", "VRS_25S1DS__a.sto") 5) []).2.1,
          (Main.copy_setup_files [] [Folder.mk "porsche992gt3"] (fun _ _ => none)
            (upd (fun _ => none) ("porsche992gt3", "VRS_25S1DS__a.sto") 5) []).2.2) :=
  ⟨by decide, by decide,
    C9_empty_key_first_folder [] (Folder.mk "porsche992gt3") [] (fun _ _ => none)
      (fun _ => none) (SetupFile.mk "VRS_25S1DS__a.sto" "VRS_25S1DS__a" 5) []
      "VRS" "25S1DS" ["a"] (by decide) (by decide) rfl⟩

/-- Claim C10 fails on main.py: the alias entries A to X and a to Y have distinct
keys, yet their lower-cased forms collide, so the later entry overrides the
earlier one in folder_mapping and the key A no longer maps to its own value
X. -/
theorem C10_counterexample :
    ("A", "X") ∈ [("A", "X"), ("a", "Y")] ∧ ("A" : String) ≠ "" ∧
      Main.build_folder_mapping [("A", "X"), ("a", "Y")] (pyLower "A") = some "Y" ∧
      ("Y" : String) ≠ "X" := by
  decide

/-- Claim C10 amended: in folder_mapping of main.py, a canonical value whose
lower-cased form collides with no lower-cased non-empty alias key and with
no other value is mapped from its lower-cased form to itself; a non-empty
alias key whose lower-cased form collides with no other non-empty alias key
is mapped from its lower-cased form to its value, overriding value
self-maps; an empty alias key contributes only the self-map of its value;
and the lower-cased form of every value is always present as a lookup key,
so a file key equal to a lower-cased canonical value always resolves
through the table. -/
theorem C10_amended :
    (∀ (m : List (String × String)) (k0 v : String), (k0, v) ∈ m →
        (∀ kv ∈ m, pyLower kv.2 = pyLower v → kv.2 = v) →
        (∀ kv ∈ m, kv.1 ≠ "" → pyLower kv.1 ≠ pyLower v) →
        Main.build_folder_mapping m (pyLower v) = some v) ∧
    (∀ (m : List (String × String)) (k v : String), (k, v) ∈ m → k ≠ "" →
        (∀ kv ∈ m, kv.1 ≠ "" → pyLower kv.1 = pyLower k → kv.2 = v) →
        Main.build_folder_mapping m (pyLower k) = some v) ∧
    (Main.build_folder_mapping [("", "V")] "" = none ∧
      Main.build_folder_mapping [("", "V")] "v" = some "V") ∧
    (∀ (m : List (String × String)) (kv : String × String), kv ∈ m →
        Main.build_folder_mapping m (pyLower kv.2) ≠ none) := by
  refine ⟨?_, ?_, ⟨by decide, by decide⟩, ?_⟩
  · intro m k0 v hm hvals hkeys
    unfold Main.build_folder_mapping
    rw [applyWrites_apply]
    have halias : lastWrite
        ((m.filter (fun kv => kv.1 != "")).map (fun kv => (pyLower kv.1, kv.2)))
        (pyLower v) = none := by
      rw [lastWrite_eq_none_iff]
      rintro w hw
      rcases List.mem_map.mp hw with ⟨kv, hkv, rfl⟩
      have h1 := List.mem_filter.mp hkv
      exact hkeys kv h1.1 (by simpa using h1.2)
    rw [halias]
    show applyWrites (fun _ => none) (m.map fun kv => (pyLower kv.2, kv.2)) (pyLower v) =
      some v
    rw [applyWrites_apply]
    have hval : lastWrite (m.map fun kv => (pyLower kv.2, kv.2)) (pyLower v) = some v := by
      apply lastWrite_eq_some_of
      · exact ⟨(pyLower v, v), List.mem_map_of_mem _ hm, rfl⟩
      · rintro w hw hwk
        rcases List.mem_map.mp hw with ⟨kv, hkv, rfl⟩
        exact hvals kv hkv hwk
    rw [hval]
    rfl
  · intro m k v hm hk huniq
    unfold Main.build_folder_mapping
    rw [applyWrites_apply]
    have hlw : lastWrite
        ((m.filter (fun kv => kv.1 != "")).map (fun kv => (pyLower kv.1, kv.2)))
        (pyLower k) = some v := by
      apply lastWrite_eq_some_of
      · exact ⟨(pyLower k, v),
          List.mem_map_of_mem _ (List.mem_filter.mpr ⟨hm, by simpa using hk⟩), rfl⟩
      · rintro w hw hwk
        rcases List.mem_map.mp hw with ⟨kv, hkv, rfl⟩
        have h1 := List.mem_filter.mp hkv
        exact huniq kv h1.1 (by simpa using h1.2) hwk
    rw [hlw]
    rfl
  · intro m kv hm
    unfold Main.build_folder_mapping
    rw [applyWrites_apply]
    cases hl : lastWrite
        ((m.filter (fun kv => kv.1 != "")).map (fun kv => (pyLower kv.1, kv.2)))
        (pyLower kv.2) with
    | some u => simp
    | none =>
      show applyWrites (fun _ => none) (m.map fun kv => (pyLower kv.2, kv.2))
          (pyLower kv.2) ≠ none
      rw [applyWrites_apply]
      cases hv : lastWrite (m.map fun kv => (pyLower kv.2, kv.2)) (pyLower kv.2) with
      | some u => simp
      | none =>
        exfalso
        exact (lastWrite_eq_none_iff _ _).mp hv (pyLower kv.2, kv.2)
          (List.mem_map_of_mem _ hm) rfl

/-- Witness for C10 amended on a concrete alias table. -/
theorem C10_amended_witness :
    (("gt3", "Porsche") ∈ [("gt3", "Porsche")] ∧
      Main.build_folder_mapping [("gt3", "Porsche")] (pyLower "Porsche") = some "Porsche") ∧
    (("gt3", "Porsche") ∈ [("gt3", "Porsche")] ∧ ("gt3" : String) ≠ "" ∧
      Main.build_folder_mapping [("gt3", "Porsche")] (pyLower "gt3") = some "Porsche") ∧
    Main.build_folder_mapping [("gt3", "Porsche")] (pyLower "Porsche") ≠ none := by
  refine ⟨⟨by decide, ?_⟩, ⟨by decide, by decide, ?_⟩, ?_⟩
  · exact C10_amended.1 [("gt3", "Porsche")] "gt3" "Porsche" (by decide) (by decide)
      (by decide)
  · exact C10_amended.2.1 [("gt3", "Porsche")] "gt3" "Porsche" (by decide) (by decide)
      (by decide)
  · exact C10_amended.2.2.2 [("gt3", "Porsche")] ("gt3", "Porsche") (by decide)

end SetupCopier
